import Mathlib

/-!
Shallow embedding of `django_firebase_auth/views.py`.

External collaborators (the Firebase token-verification call, the pluggable
user-resolution strategy, Django password checking and URL resolution) are
modelled as oracle functions carried in an environment record; the control
flow of the two request handlers (`authenticate` and `AdminLoginView.post`)
is translated statement by statement from the source.  Session establishment
(`django.contrib.auth.login`) is modelled as setting the session field of the
result, and each handler result also carries the trace of external calls the
handler performed, in order.
-/

namespace DjangoFirebaseAuth

/-- Decoded Firebase token claims: the fields `views.py` reads. -/
structure TokenPayload where
  uid : String
  email : String
  email_verified : Bool
deriving DecidableEq, Repr

/-- Outcome of the external `auth.verify_id_token` call, as the source
distinguishes them by its `except` clauses: success with decoded claims,
`ExpiredIdTokenError`, or any other `FirebaseError`. -/
inductive VerifyOutcome where
  | ok (payload : TokenPayload)
  | expired
  | firebaseError
deriving DecidableEq, Repr

/-- A local user record, with the fields the views read. -/
structure User where
  id : Nat
  email : String
  is_staff : Bool
deriving DecidableEq, Repr

/-- The closed taxonomy of `AuthError` subclasses in `views.py`. -/
inductive AuthError where
  | other
  | noAuthHeader
  | jwtExpired
  | jwtInvalid
  | userNotRegistered
  | emailNotVerified
deriving DecidableEq, Repr

/-- `error_type` class attribute of each `AuthError` subclass. -/
def AuthError.error_type : AuthError → String
  | .other => "OTHER"
  | .noAuthHeader => "NO_AUTH_HEADER"
  | .jwtExpired => "JWT_EXPIRED"
  | .jwtInvalid => "JWT_INVALID"
  | .userNotRegistered => "USER_NOT_REGISTERED"
  | .emailNotVerified => "EMAIL_NOT_VERIFIED"

/-- `error_description` class attribute of each `AuthError` subclass. -/
def AuthError.error_description : AuthError → String
  | .other => "Something went wrong"
  | .noAuthHeader => "Missing Firebase authentication header"
  | .jwtExpired => "Firebase authentication token is expired"
  | .jwtInvalid => "Firebase authentication token is invalid"
  | .userNotRegistered => "This user has not been registered"
  | .emailNotVerified => "User email has not been verified"

/-- JSON bodies the views produce: `{"status": "ok"}` or
`{"error": <code>, "description": <text>}`. -/
inductive ResponseBody where
  | statusOk
  | errorBody (error : String) (description : String)
deriving DecidableEq, Repr

/-- `AuthError.make_response_body`: the dict
`{'error': cls.error_type, 'description': cls.error_description}`. -/
def AuthError.make_response_body (e : AuthError) : ResponseBody :=
  .errorBody e.error_type e.error_description

/-- A `JsonResponse`: body plus HTTP status (default 200 in Django). -/
structure JsonResponse where
  status : Nat
  body : ResponseBody
deriving DecidableEq, Repr

/-- Request headers, as key/value pairs; `get` is dict-style lookup
(`headers.get(JWT_HEADER_NAME)`). -/
def headersGet (headers : List (String × String)) (key : String) : Option String :=
  (headers.find? (fun p => p.1 = key)).map (fun p => p.2)

/-- Configuration and external collaborators of the token-login view:
the configured header name, the `ALLOW_NOT_CONFIRMED_EMAILS` flag, the
external verification call, and the pluggable user-resolution strategy
(`user_getter.get_or_create_user`; `none` models it raising `UserNotFound`). -/
structure FirebaseEnv where
  jwt_header_name : String
  allow_not_confirmed_emails : Bool
  verify_id_token : String → VerifyOutcome
  get_or_create_user : TokenPayload → Option User

/-- `_verify_firebase_account(headers)`: read the configured header, call the
external verifier, map its failures to `AuthError`s, then enforce the
email-verified check. -/
def verify_firebase_account (env : FirebaseEnv) (headers : List (String × String)) :
    Except AuthError TokenPayload :=
  match headersGet headers env.jwt_header_name with
  | none => .error .noAuthHeader
  | some jwt =>
    match env.verify_id_token jwt with
    | .expired => .error .jwtExpired
    | .firebaseError => .error .jwtInvalid
    | .ok decoded_token =>
      if !decoded_token.email_verified && !env.allow_not_confirmed_emails then
        .error .emailNotVerified
      else
        .ok decoded_token

/-- External calls `authenticate` can make, in the order it makes them. -/
inductive AuthEvent where
  | verifyCall
  | resolveCall
  | loginCall
deriving DecidableEq, Repr

/-- The parts of the incoming request `authenticate` touches: its headers and
the session state before the call (the authenticated user, if any). -/
structure AuthRequest where
  headers : List (String × String)
  session : Option User
deriving Repr

/-- Result of `authenticate`: the response, the session state after the call,
and the trace of external calls made. -/
structure AuthResult where
  response : JsonResponse
  session : Option User
  trace : List AuthEvent
deriving Repr

/-- `authenticate(request)`: verify the token (mapping `AuthError` to a 401
with the error body), resolve the user (mapping `UserNotFound` to a 401 with
the `UserNotRegistered` body), then `login` and return 200 `{"status":"ok"}`. -/
def authenticate (env : FirebaseEnv) (req : AuthRequest) : AuthResult :=
  match verify_firebase_account env req.headers with
  | .error ex =>
    { response := ⟨401, ex.make_response_body⟩
      session := req.session
      trace := [.verifyCall] }
  | .ok jwt_payload =>
    match env.get_or_create_user jwt_payload with
    | none =>
      { response := ⟨401, AuthError.make_response_body .userNotRegistered⟩
        session := req.session
        trace := [.verifyCall, .resolveCall] }
    | some user =>
      { response := ⟨200, .statusOk⟩
        session := some user
        trace := [.verifyCall, .resolveCall, .loginCall] }

/-- Python truthiness of an optional string: `None` and `""` are falsy. -/
def pyTruthy : Option String → Bool
  | none => false
  | some s => s ≠ ""

namespace AdminLoginView

/-- `AdminLoginView._BAD_CREDENTIALS`. -/
def BAD_CREDENTIALS : String := "Wrong email or password"

/-- `AdminLoginView._NON_STAFF`. -/
def NON_STAFF : String := "To access admin panel, you must login as a staff member"

/-- Configuration and external collaborators of the staff-login view:
template-context configuration values, the user table (`UserModel.objects`,
looked up by email), Django's password check, and `resolve_url`
(`none` models it raising `NoReverseMatch`). -/
structure AdminEnv where
  web_api_key : String
  auth_domain : String
  enable_google_login : Bool
  jwt_header_name : String
  auth_endpoint : String
  admin_login_redirect_url : String
  resolve_url : String → Option String
  users : List User
  check_password : User → String → Bool

/-- The template context `_render` builds (the per-request parts are the
`next` target and the optional error message; the rest is configuration). -/
structure RenderContext where
  firebase_web_api_key : String
  firebase_auth_domain : String
  enable_google_login : Bool
  jwt_header_name : String
  firebase_auth_endpoint : String
  login_redirect_url : String
  error : Option String
deriving DecidableEq, Repr

/-- `_render(request, next, error)`: the context handed to the login
template. -/
def render (env : AdminEnv) (next_target : String) (error : Option String) :
    RenderContext :=
  { firebase_web_api_key := env.web_api_key
    firebase_auth_domain := env.auth_domain
    enable_google_login := env.enable_google_login
    jwt_header_name := env.jwt_header_name
    firebase_auth_endpoint := env.auth_endpoint
    login_redirect_url := next_target
    error := error }

/-- Responses the staff-login view can produce: a rendered form (a 200
`HttpResponse` over the login template) or a redirect. -/
inductive AdminResponse where
  | rendered (ctx : RenderContext)
  | redirected (target : String)
deriving DecidableEq, Repr

/-- `_get_next(query)`: read `next` from the query; when truthy, try
`resolve_url` on it, keeping the raw value when `NoReverseMatch` is raised;
fall back to `resolve_url(ADMIN_LOGIN_REDIRECT_URL)` when the result is
falsy.  `none` models `NoReverseMatch` escaping from the uncaught fallback
call. -/
def get_next (env : AdminEnv) (query_next : Option String) : Option String :=
  let next_val : Option String :=
    if pyTruthy query_next then
      match env.resolve_url (query_next.getD "") with
      | some r => some r
      | none => query_next
    else query_next
  if pyTruthy next_val then next_val
  else env.resolve_url env.admin_login_redirect_url

/-- The parts of a POST request the view touches: the form fields and the
session state before the call. -/
structure PostRequest where
  next_param : Option String
  email : Option String
  password : Option String
  session : Option User
deriving Repr

/-- Result of `AdminLoginView.post`: the response (or `none` when
`NoReverseMatch` escapes unhandled — from the uncaught `resolve_url`
fallback inside `_get_next`, or from the `resolve_url` call inside
`django.shortcuts.redirect`) and the session state after. -/
structure PostResult where
  response : Option AdminResponse
  session : Option User
deriving Repr

/-- `AdminLoginView.post(request)`: resolve the `next` target, require
non-empty email and password, look the user up by email, check the password,
`login` on a correct password, then redirect when the logged-in user is
staff and re-render with the "not staff" message otherwise.
`django.shortcuts.redirect(to)` is `HttpResponseRedirect(resolve_url(to))`,
so the staff branch re-applies `resolve_url` to the target; when that call
raises `NoReverseMatch` the exception escapes with the session already
established by the preceding `login`. -/
def post (env : AdminEnv) (req : PostRequest) : PostResult :=
  match get_next env req.next_param with
  | none => { response := none, session := req.session }
  | some next_target =>
    if !pyTruthy req.email then
      { response := some (.rendered (render env next_target
          (some "Email field must be non-empty")))
        session := req.session }
    else if !pyTruthy req.password then
      { response := some (.rendered (render env next_target
          (some "Password field must be non-empty")))
        session := req.session }
    else
      match env.users.find? (fun u => u.email = req.email.getD "") with
      | none =>
        { response := some (.rendered (render env next_target (some BAD_CREDENTIALS)))
          session := req.session }
      | some user =>
        if env.check_password user (req.password.getD "") then
          if user.is_staff then
            match env.resolve_url next_target with
            | none =>
              { response := none
                session := some user }
            | some url =>
              { response := some (.redirected url)
                session := some user }
          else
            { response := some (.rendered (render env next_target (some NON_STAFF)))
              session := some user }
        else
          { response := some (.rendered (render env next_target (some BAD_CREDENTIALS)))
            session := req.session }

end AdminLoginView

/-! Concrete material for witnesses. -/

/-- A decoded token with a verified email. -/
def tokenVerified : TokenPayload :=
  { uid := "uid-1", email := "alice@example.com", email_verified := true }

/-- A decoded token whose email-verified claim is false. -/
def tokenUnverified : TokenPayload :=
  { uid := "uid-2", email := "bob@example.com", email_verified := false }

/-- A local user matching `tokenVerified`. -/
def aliceUser : User :=
  { id := 1, email := "alice@example.com", is_staff := false }

/-- A deployment whose verifier accepts exactly the token `"goodtok"` and
whose user strategy resolves `tokenVerified` to `aliceUser`. -/
def envHappy : FirebaseEnv :=
  { jwt_header_name := "X-Firebase-Token"
    allow_not_confirmed_emails := false
    verify_id_token := fun t => if t = "goodtok" then .ok tokenVerified else .firebaseError
    get_or_create_user := fun p => if p.email = "alice@example.com" then some aliceUser else none }

/-- A deployment whose verifier reports every token expired. -/
def envExpired : FirebaseEnv :=
  { jwt_header_name := "X-Firebase-Token"
    allow_not_confirmed_emails := false
    verify_id_token := fun _ => .expired
    get_or_create_user := fun _ => none }

/-- A deployment whose verifier accepts every token as `tokenUnverified` and
whose user strategy never finds a user. -/
def envUnverified : FirebaseEnv :=
  { jwt_header_name := "X-Firebase-Token"
    allow_not_confirmed_emails := false
    verify_id_token := fun _ => .ok tokenUnverified
    get_or_create_user := fun _ => none }

/-- A deployment whose verifier accepts every token as `tokenVerified` and
whose user strategy never finds a user (creation disabled, no match). -/
def envNoUser : FirebaseEnv :=
  { jwt_header_name := "X-Firebase-Token"
    allow_not_confirmed_emails := false
    verify_id_token := fun _ => .ok tokenVerified
    get_or_create_user := fun _ => none }

/-- A request with no authentication header and no session. -/
def reqNoHeader : AuthRequest := { headers := [], session := none }

/-- A request carrying the token `"goodtok"` and no session. -/
def reqGoodTok : AuthRequest :=
  { headers := [("X-Firebase-Token", "goodtok")], session := none }

/-- A request carrying the token `"badtok"` and no session. -/
def reqBadTok : AuthRequest :=
  { headers := [("X-Firebase-Token", "badtok")], session := none }

/-- A staff user for the admin-login material. -/
def staffUser : User := { id := 1, email := "staff@example.com", is_staff := true }

/-- A non-staff user for the admin-login material. -/
def plainUser : User := { id := 2, email := "plain@example.com", is_staff := false }

/-- A concrete staff-login deployment: two users, a password table, and a
`resolve_url` that resolves the configured redirect and `"/dash/"` and
raises `NoReverseMatch` on everything else. -/
def adminEnvW : AdminLoginView.AdminEnv :=
  { web_api_key := "web-api-key"
    auth_domain := "example.firebaseapp.com"
    enable_google_login := true
    jwt_header_name := "X-Firebase-Token"
    auth_endpoint := "/auth/login/"
    admin_login_redirect_url := "admin:index"
    resolve_url := fun s =>
      if s = "admin:index" then some "/admin/"
      else if s = "/admin/" then some "/admin/"
      else if s = "/dash/" then some "/dash/"
      else none
    users := [staffUser, plainUser]
    check_password := fun u pw =>
      (u.id == 1 && pw == "s3cret") || (u.id == 2 && pw == "pw2") }

/-- A POST with the non-staff user's correct credentials and no `next`. -/
def reqNonStaff : AdminLoginView.PostRequest :=
  { next_param := none
    email := some "plain@example.com"
    password := some "pw2"
    session := none }

/-- A POST with the staff user's correct credentials and an unresolvable
`next`. -/
def reqBadNext : AdminLoginView.PostRequest :=
  { next_param := some "badnext"
    email := some "staff@example.com"
    password := some "s3cret"
    session := none }

/-- A POST with the staff user's correct credentials and a resolvable
`next`. -/
def reqStaffDash : AdminLoginView.PostRequest :=
  { next_param := some "/dash/"
    email := some "staff@example.com"
    password := some "s3cret"
    session := none }

/-- A POST naming an email with no matching user. -/
def reqUnknownEmail : AdminLoginView.PostRequest :=
  { next_param := some "/dash/"
    email := some "nobody@example.com"
    password := some "whatever"
    session := none }

/-- A POST naming the staff user's email with a wrong password. -/
def reqWrongPassword : AdminLoginView.PostRequest :=
  { next_param := some "/dash/"
    email := some "staff@example.com"
    password := some "wrong"
    session := none }

/-! Claims about `authenticate`. -/

/-- C5: when the configured authentication header is absent, `authenticate`
responds 401 with body `{"error": "NO_AUTH_HEADER", "description": "Missing
Firebase authentication header"}`. -/
theorem authenticate_missing_header_401 (env : FirebaseEnv) (req : AuthRequest)
    (h : headersGet req.headers env.jwt_header_name = none) :
    (authenticate env req).response =
      ⟨401, .errorBody "NO_AUTH_HEADER" "Missing Firebase authentication header"⟩ := by
  simp [authenticate, verify_firebase_account, h, AuthError.make_response_body,
    AuthError.error_type, AuthError.error_description]

/-- Witness for C5: the no-header request in the happy deployment gets the
`NO_AUTH_HEADER` 401. -/
theorem authenticate_missing_header_401_witness :
    (authenticate envHappy reqNoHeader).response =
      ⟨401, .errorBody "NO_AUTH_HEADER" "Missing Firebase authentication header"⟩ :=
  authenticate_missing_header_401 envHappy reqNoHeader rfl

/-- C6: when the header is present and verification fails because the token
is expired, `authenticate` responds 401 with error code `JWT_EXPIRED`. -/
theorem authenticate_expired_401 (env : FirebaseEnv) (req : AuthRequest) (jwt : String)
    (hh : headersGet req.headers env.jwt_header_name = some jwt)
    (hv : env.verify_id_token jwt = .expired) :
    (authenticate env req).response =
      ⟨401, .errorBody "JWT_EXPIRED" "Firebase authentication token is expired"⟩ := by
  simp [authenticate, verify_firebase_account, hh, hv, AuthError.make_response_body,
    AuthError.error_type, AuthError.error_description]

/-- Witness for C6: a request in the all-expired deployment gets the
`JWT_EXPIRED` 401. -/
theorem authenticate_expired_401_witness :
    (authenticate envExpired reqGoodTok).response =
      ⟨401, .errorBody "JWT_EXPIRED" "Firebase authentication token is expired"⟩ :=
  authenticate_expired_401 envExpired reqGoodTok "goodtok" rfl rfl

/-- C2: when the header is present and verification fails for any reason
other than expiry (the verifier raises any other `FirebaseError`),
`authenticate` responds 401 with error code `JWT_INVALID`; on every request
it returns a response with status 200 or 401, so no authentication failure
escapes as an unhandled exception. -/
theorem authenticate_invalid_401 (env : FirebaseEnv) (req : AuthRequest) (jwt : String)
    (hh : headersGet req.headers env.jwt_header_name = some jwt)
    (hv : env.verify_id_token jwt = .firebaseError) :
    (authenticate env req).response =
      ⟨401, .errorBody "JWT_INVALID" "Firebase authentication token is invalid"⟩ ∧
    ∀ (env' : FirebaseEnv) (req' : AuthRequest),
      (authenticate env' req').response.status = 200 ∨
      (authenticate env' req').response.status = 401 := by
  constructor
  · simp [authenticate, verify_firebase_account, hh, hv, AuthError.make_response_body,
      AuthError.error_type, AuthError.error_description]
  · intro env' req'
    unfold authenticate
    cases hfa : verify_firebase_account env' req'.headers with
    | error ex => right; simp
    | ok p =>
      cases hgc : env'.get_or_create_user p with
      | none => right; simp [hgc]
      | some u => left; simp [hgc]

/-- Witness for C2: a wrong token in the happy deployment gets the
`JWT_INVALID` 401. -/
theorem authenticate_invalid_401_witness :
    (authenticate envHappy reqBadTok).response =
      ⟨401, .errorBody "JWT_INVALID" "Firebase authentication token is invalid"⟩ ∧
    ∀ (env' : FirebaseEnv) (req' : AuthRequest),
      (authenticate env' req').response.status = 200 ∨
      (authenticate env' req').response.status = 401 :=
  authenticate_invalid_401 envHappy reqBadTok "badtok" rfl rfl

/-- C7: when the token verifies but its email-verified claim is false,
`_verify_firebase_account` fails with `EmailNotVerified` exactly when the
deployment does not allow unverified emails; when it does allow them, the
check is passed and the decoded payload is returned. -/
theorem verify_unverified_email_check (env : FirebaseEnv)
    (headers : List (String × String)) (jwt : String) (p : TokenPayload)
    (hh : headersGet headers env.jwt_header_name = some jwt)
    (hv : env.verify_id_token jwt = .ok p)
    (he : p.email_verified = false) :
    (verify_firebase_account env headers = .error .emailNotVerified ↔
      env.allow_not_confirmed_emails = false) ∧
    (env.allow_not_confirmed_emails = true → verify_firebase_account env headers = .ok p) := by
  cases ha : env.allow_not_confirmed_emails <;>
    simp [verify_firebase_account, hh, hv, he, ha]

/-- Witness for C7: an unverified-email token in a deployment requiring
verified emails fails with `EmailNotVerified`. -/
theorem verify_unverified_email_check_witness :
    (verify_firebase_account envUnverified reqGoodTok.headers = .error .emailNotVerified ↔
      envUnverified.allow_not_confirmed_emails = false) ∧
    (envUnverified.allow_not_confirmed_emails = true →
      verify_firebase_account envUnverified reqGoodTok.headers = .ok tokenUnverified) :=
  verify_unverified_email_check envUnverified reqGoodTok.headers "goodtok" tokenUnverified
    rfl rfl rfl

/-- C8: when the token verifies, the email check passes, and the user
strategy raises `UserNotFound`, `authenticate` responds 401 with error code
`USER_NOT_REGISTERED`. -/
theorem authenticate_user_not_found_401 (env : FirebaseEnv) (req : AuthRequest)
    (jwt : String) (p : TokenPayload)
    (hh : headersGet req.headers env.jwt_header_name = some jwt)
    (hv : env.verify_id_token jwt = .ok p)
    (he : p.email_verified = true ∨ env.allow_not_confirmed_emails = true)
    (hu : env.get_or_create_user p = none) :
    (authenticate env req).response =
      ⟨401, .errorBody "USER_NOT_REGISTERED" "This user has not been registered"⟩ := by
  have hcheck : (!p.email_verified && !env.allow_not_confirmed_emails) = false := by
    rcases he with he | he <;> simp [he]
  simp [authenticate, verify_firebase_account, hh, hv, hcheck, hu,
    AuthError.make_response_body, AuthError.error_type, AuthError.error_description]

/-- Witness for C8: a verified token in the no-user deployment gets the
`USER_NOT_REGISTERED` 401. -/
theorem authenticate_user_not_found_401_witness :
    (authenticate envNoUser reqGoodTok).response =
      ⟨401, .errorBody "USER_NOT_REGISTERED" "This user has not been registered"⟩ :=
  authenticate_user_not_found_401 envNoUser reqGoodTok "goodtok" tokenVerified
    rfl rfl (Or.inl rfl) rfl

/-- C3: when the token verifies, the email check passes, and the user
strategy resolves a user, `authenticate` calls verification, user
resolution, then session establishment, in that order, establishes the
session for that user, and returns 200 with body `{"status": "ok"}`. -/
theorem authenticate_success (env : FirebaseEnv) (req : AuthRequest)
    (jwt : String) (p : TokenPayload) (user : User)
    (hh : headersGet req.headers env.jwt_header_name = some jwt)
    (hv : env.verify_id_token jwt = .ok p)
    (he : p.email_verified = true ∨ env.allow_not_confirmed_emails = true)
    (hu : env.get_or_create_user p = some user) :
    (authenticate env req).response = ⟨200, .statusOk⟩ ∧
    (authenticate env req).session = some user ∧
    (authenticate env req).trace = [.verifyCall, .resolveCall, .loginCall] := by
  have hcheck : (!p.email_verified && !env.allow_not_confirmed_emails) = false := by
    rcases he with he | he <;> simp [he]
  refine ⟨?_, ?_, ?_⟩ <;>
    simp [authenticate, verify_firebase_account, hh, hv, hcheck, hu]

/-- Witness for C3: the good token in the happy deployment yields 200,
establishes the session for `aliceUser`, and performs
verify → resolve → login. -/
theorem authenticate_success_witness :
    (authenticate envHappy reqGoodTok).response = ⟨200, .statusOk⟩ ∧
    (authenticate envHappy reqGoodTok).session = some aliceUser ∧
    (authenticate envHappy reqGoodTok).trace = [.verifyCall, .resolveCall, .loginCall] :=
  authenticate_success envHappy reqGoodTok "goodtok" tokenVerified aliceUser
    rfl rfl (Or.inl rfl) rfl

/-- C4: whenever `authenticate` returns an error response (status 401), the
session is unchanged and `login` was never invoked. -/
theorem authenticate_error_no_session (env : FirebaseEnv) (req : AuthRequest)
    (h : (authenticate env req).response.status = 401) :
    (authenticate env req).session = req.session ∧
    AuthEvent.loginCall ∉ (authenticate env req).trace := by
  unfold authenticate at h ⊢
  cases hfa : verify_firebase_account env req.headers with
  | error ex => constructor <;> simp
  | ok p =>
    rw [hfa] at h
    cases hgc : env.get_or_create_user p with
    | none => constructor <;> simp [hgc]
    | some u => simp [hgc] at h

/-- Witness for C4: the no-user deployment returns a 401 and leaves the
session untouched without calling `login`. -/
theorem authenticate_error_no_session_witness :
    (authenticate envNoUser reqGoodTok).session = reqGoodTok.session ∧
    AuthEvent.loginCall ∉ (authenticate envNoUser reqGoodTok).trace :=
  authenticate_error_no_session envNoUser reqGoodTok rfl

/-! Claims about `AdminLoginView.post`. -/

/-- Case analysis of `_get_next`: the target is the resolution of a truthy
`next` when it resolves to a non-empty URL, the raw `next` when resolution
raises `NoReverseMatch`, and the resolution of the configured redirect URL
otherwise. -/
theorem get_next_spec (env : AdminLoginView.AdminEnv) (q : Option String) (nxt : String)
    (hn : AdminLoginView.get_next env q = some nxt) :
    (pyTruthy q = true →
      (∃ r, env.resolve_url (q.getD "") = some r ∧ r ≠ "" ∧ nxt = r) ∨
      (env.resolve_url (q.getD "") = none ∧ nxt = q.getD "") ∨
      (env.resolve_url (q.getD "") = some "" ∧
        env.resolve_url env.admin_login_redirect_url = some nxt)) ∧
    (pyTruthy q = false → env.resolve_url env.admin_login_redirect_url = some nxt) := by
  unfold AdminLoginView.get_next at hn
  cases hq : pyTruthy q with
  | false =>
    refine ⟨by simp [hq], fun _ => ?_⟩
    simpa [hq] using hn
  | true =>
    refine ⟨fun _ => ?_, by simp [hq]⟩
    rw [hq] at hn
    simp only [if_true] at hn
    cases hr : env.resolve_url (q.getD "") with
    | none =>
      rw [hr] at hn
      simp only [hq, if_true] at hn
      refine Or.inr (Or.inl ⟨rfl, ?_⟩)
      simp [hn]
    | some r =>
      rw [hr] at hn
      by_cases hre : r = ""
      · subst hre
        simp [pyTruthy] at hn
        exact Or.inr (Or.inr ⟨rfl, hn⟩)
      · simp [pyTruthy, hre] at hn
        exact Or.inl ⟨r, rfl, hre, hn.symm⟩

/-- C1 counterexample: in a concrete deployment, a POST with the non-staff
user's correct credentials establishes a session for that user (the code
calls `login` before the staff check), while re-rendering the form with the
"not staff" message — so a session is established for a non-staff user. -/
theorem admin_post_non_staff_session_counterexample :
    adminEnvW.check_password plainUser "pw2" = true ∧
    plainUser.is_staff = false ∧
    reqNonStaff.session = none ∧
    (AdminLoginView.post adminEnvW reqNonStaff).session = some plainUser ∧
    (AdminLoginView.post adminEnvW reqNonStaff).response =
      some (.rendered (AdminLoginView.render adminEnvW "/admin/"
        (some AdminLoginView.NON_STAFF))) := by
  refine ⟨by decide, rfl, rfl, by decide, by decide⟩

/-- C1 amended: whenever the submitted email matches a user and the password
check passes, `login` is invoked and the session is established for that
user regardless of the staff flag; if the user is not staff the form is then
re-rendered with the "not staff" message (the session remains established);
if the user is staff, `redirect(next)` is attempted: a redirect to
`resolve_url` of the target when that call succeeds, and an unhandled
`NoReverseMatch` (with the session still established) when it raises. -/
theorem admin_post_correct_password_login (env : AdminLoginView.AdminEnv)
    (req : AdminLoginView.PostRequest) (user : User) (nxt : String)
    (hn : AdminLoginView.get_next env req.next_param = some nxt)
    (he : pyTruthy req.email = true) (hp : pyTruthy req.password = true)
    (hu : env.users.find? (fun u => u.email = req.email.getD "") = some user)
    (hpw : env.check_password user (req.password.getD "") = true) :
    (AdminLoginView.post env req).session = some user ∧
    (user.is_staff = false →
      (AdminLoginView.post env req).response =
        some (.rendered (AdminLoginView.render env nxt (some AdminLoginView.NON_STAFF)))) ∧
    (user.is_staff = true →
      (AdminLoginView.post env req).response =
        (env.resolve_url nxt).map AdminLoginView.AdminResponse.redirected) := by
  cases hst : user.is_staff <;>
    cases hr : env.resolve_url nxt <;>
      simp [AdminLoginView.post, hn, he, hp, hu, hpw, hst, hr]

/-- Witness for C1's amended theorem: the non-staff POST establishes the
session for `plainUser` and re-renders with the "not staff" message. -/
theorem admin_post_correct_password_login_witness :
    (AdminLoginView.post adminEnvW reqNonStaff).session = some plainUser ∧
    (plainUser.is_staff = false →
      (AdminLoginView.post adminEnvW reqNonStaff).response =
        some (.rendered (AdminLoginView.render adminEnvW "/admin/"
          (some AdminLoginView.NON_STAFF)))) ∧
    (plainUser.is_staff = true →
      (AdminLoginView.post adminEnvW reqNonStaff).response =
        (adminEnvW.resolve_url "/admin/").map AdminLoginView.AdminResponse.redirected) :=
  admin_post_correct_password_login adminEnvW reqNonStaff plainUser "/admin/"
    (by decide) (by decide) (by decide) (by decide) (by decide)

/-- C9 counterexample: with a submitted `next` that is present and non-empty
but on which `resolve_url` raises `NoReverseMatch`, a staff POST with
correct credentials produces no redirect response at all — `_get_next`
keeps the raw value and the `resolve_url` call inside
`django.shortcuts.redirect` then raises the same `NoReverseMatch`, which
escapes unhandled (with the session already established by `login`). -/
theorem admin_post_redirect_unresolved_counterexample :
    pyTruthy reqBadNext.next_param = true ∧
    adminEnvW.resolve_url (reqBadNext.next_param.getD "") = none ∧
    staffUser.is_staff = true ∧
    adminEnvW.check_password staffUser "s3cret" = true ∧
    (AdminLoginView.post adminEnvW reqBadNext).response = none ∧
    (AdminLoginView.post adminEnvW reqBadNext).session = some staffUser := by
  refine ⟨by decide, by decide, rfl, by decide, by decide, by decide⟩

/-- C9 amended: a staff POST with correct credentials attempts
`redirect(target)` on the `_get_next` result: the response is a redirect to
`resolve_url` of that target when the call succeeds, and `NoReverseMatch`
escapes unhandled (no response) when it raises — which it does exactly on
the raw values `_get_next` kept after swallowing `NoReverseMatch`.  The
target itself is the resolution of the submitted `next` parameter when it
is present, non-empty, and resolves to a non-empty URL; the raw submitted
value when its resolution raises `NoReverseMatch`; and the resolution of
the configured admin-login redirect URL otherwise. -/
theorem admin_post_staff_redirect (env : AdminLoginView.AdminEnv)
    (req : AdminLoginView.PostRequest) (user : User) (nxt : String)
    (hn : AdminLoginView.get_next env req.next_param = some nxt)
    (he : pyTruthy req.email = true) (hp : pyTruthy req.password = true)
    (hu : env.users.find? (fun u => u.email = req.email.getD "") = some user)
    (hpw : env.check_password user (req.password.getD "") = true)
    (hstaff : user.is_staff = true) :
    (AdminLoginView.post env req).response =
      (env.resolve_url nxt).map AdminLoginView.AdminResponse.redirected ∧
    (pyTruthy req.next_param = true →
      (∃ r, env.resolve_url (req.next_param.getD "") = some r ∧ r ≠ "" ∧ nxt = r) ∨
      (env.resolve_url (req.next_param.getD "") = none ∧ nxt = req.next_param.getD "") ∨
      (env.resolve_url (req.next_param.getD "") = some "" ∧
        env.resolve_url env.admin_login_redirect_url = some nxt)) ∧
    (pyTruthy req.next_param = false →
      env.resolve_url env.admin_login_redirect_url = some nxt) := by
  have hspec := get_next_spec env req.next_param nxt hn
  refine ⟨?_, hspec.1, hspec.2⟩
  cases hr : env.resolve_url nxt <;>
    simp [AdminLoginView.post, hn, he, hp, hu, hpw, hstaff, hr]

/-- Witness for C9's amended theorem: the staff POST with `next = "/dash/"`
redirects to `"/dash/"`, the resolution of the submitted parameter (on
which the second `resolve_url` call inside `redirect` succeeds). -/
theorem admin_post_staff_redirect_witness :
    (AdminLoginView.post adminEnvW reqStaffDash).response =
      (adminEnvW.resolve_url "/dash/").map AdminLoginView.AdminResponse.redirected ∧
    (pyTruthy reqStaffDash.next_param = true →
      (∃ r, adminEnvW.resolve_url (reqStaffDash.next_param.getD "") = some r ∧
        r ≠ "" ∧ "/dash/" = r) ∨
      (adminEnvW.resolve_url (reqStaffDash.next_param.getD "") = none ∧
        "/dash/" = reqStaffDash.next_param.getD "") ∨
      (adminEnvW.resolve_url (reqStaffDash.next_param.getD "") = some "" ∧
        adminEnvW.resolve_url adminEnvW.admin_login_redirect_url = some "/dash/")) ∧
    (pyTruthy reqStaffDash.next_param = false →
      adminEnvW.resolve_url adminEnvW.admin_login_redirect_url = some "/dash/") :=
  admin_post_staff_redirect adminEnvW reqStaffDash staffUser "/dash/"
    (by decide) (by decide) (by decide) (by decide) (by decide) rfl

/-- C10: two POSTs with the same `next` target and starting session, one
naming an email with no matching user and one naming an existing user with a
wrong password, produce identical results: both re-render the form with the
same "Wrong email or password" message and leave the session unchanged, so
the response does not reveal whether the email is registered. -/
theorem admin_post_bad_credentials_indistinguishable (env : AdminLoginView.AdminEnv)
    (r1 r2 : AdminLoginView.PostRequest) (user : User)
    (hnext : r1.next_param = r2.next_param) (hsess : r1.session = r2.session)
    (he1 : pyTruthy r1.email = true) (hp1 : pyTruthy r1.password = true)
    (he2 : pyTruthy r2.email = true) (hp2 : pyTruthy r2.password = true)
    (hu1 : env.users.find? (fun u => u.email = r1.email.getD "") = none)
    (hu2 : env.users.find? (fun u => u.email = r2.email.getD "") = some user)
    (hpw : env.check_password user (r2.password.getD "") = false) :
    AdminLoginView.post env r1 = AdminLoginView.post env r2 := by
  unfold AdminLoginView.post
  rw [hnext]
  cases hg : AdminLoginView.get_next env r2.next_param with
  | none => simp [hsess]
  | some nxt => simp [hg, he1, hp1, he2, hp2, hu1, hu2, hpw, hsess]

/-- Witness for C10: the unknown-email POST and the wrong-password POST get
identical results in the concrete deployment. -/
theorem admin_post_bad_credentials_indistinguishable_witness :
    AdminLoginView.post adminEnvW reqUnknownEmail =
      AdminLoginView.post adminEnvW reqWrongPassword :=
  admin_post_bad_credentials_indistinguishable adminEnvW reqUnknownEmail reqWrongPassword
    staffUser rfl rfl (by decide) (by decide) (by decide) (by decide)
    (by decide) (by decide) (by decide)

end DjangoFirebaseAuth
